import Mathlib

/-!
# Verification of `allegro_hand_controllers/src/allegro_node.cpp`

Shallow embedding of the Allegro Hand ROS control-loop node.  Scalars
(C++ `double`) are modelled as rationals `ℚ`; timestamps are modelled as
nanosecond counts `ℤ` (matching `ros::Time`, whose subtraction yields a
normalized `ros::Duration` with `0 ≤ nsec < 10^9`).  Per-tick external
inputs (the wall clock sampled by `ros::Time::now()` and the CAN
transaction result produced by `canDevice->Update()` /
`canDevice->getJointInfo()`) are passed as explicit arguments.
-/

set_option autoImplicit false

/-- `DOF_JOINTS` from the driver header: 16 joints. -/
def DOF_JOINTS : ℕ := 16

/-- A per-joint vector of scalars (`double x[DOF_JOINTS]` in the C++). -/
def JointVec : Type := Fin DOF_JOINTS → ℚ

/-- The global `jointNames` table from `allegro_node.cpp`. -/
def jointNames : List String :=
  ["index_joint_0", "index_joint_1", "index_joint_2", "index_joint_3",
   "middle_joint_0", "middle_joint_1", "middle_joint_2", "middle_joint_3",
   "ring_joint_0", "ring_joint_1", "ring_joint_2", "ring_joint_3",
   "thumb_joint_0", "thumb_joint_1", "thumb_joint_2", "thumb_joint_3"]

/-- A `sensor_msgs::JointState` message as filled in by the node:
header stamp (nanoseconds), joint names, and the three value arrays. -/
structure JointStateMsg where
  stamp : ℤ
  name : List String
  position : JointVec
  velocity : JointVec
  effort : JointVec

/-- The state of an `AllegroNode` object: every member of the C++ class
that the control loop reads or writes, together with the externally
observable effects (the error log written by `ROS_ERROR`, the shutdown
request issued by `ros::shutdown()`, the torque last handed to
`canDevice->setTorque`, and the list of messages actually emitted on the
joint-state topic). -/
structure AllegroState where
  current_position : JointVec
  previous_position : JointVec
  current_position_filtered : JointVec
  previous_position_filtered : JointVec
  current_velocity : JointVec
  previous_velocity : JointVec
  current_velocity_filtered : JointVec
  desired_torque : JointVec
  msgJoint : JointStateMsg
  tstart : ℤ
  tnow : ℤ
  dt : ℚ
  frame : ℕ
  lEmergencyStop : ℤ
  shutdownFlag : Bool
  errorLog : List String
  lastSentTorque : JointVec
  published : List JointStateMsg

/-- `dt = 1e-9 * (tnow - tstart).nsec` from `updateController`.
`ros::Duration` normalizes its `nsec` field into `[0, 10^9)`, which is
exactly `Int` euclidean remainder; the seconds field of the duration is
not consulted by the C++ line. -/
def computeDt (tstart tnow : ℤ) : ℚ :=
  (((tnow - tstart) % 1000000000 : ℤ) : ℚ) / 1000000000

/-- `AllegroNode::updateWriteReadCAN`, given the transaction result
`resp = (status, sampledPosition)` returned by the CAN device:
`setTorque(desired_torque)`, `lEmergencyStop = Update()`,
`getJointInfo(current_position)`, then on negative status `ROS_ERROR`
and `ros::shutdown()` (which requests shutdown but does not return out
of the caller). -/
def updateWriteReadCAN (resp : ℤ × JointVec) (s : AllegroState) : AllegroState :=
  let s1 : AllegroState :=
    { s with
      lastSentTorque := s.desired_torque
      lEmergencyStop := resp.1
      current_position := resp.2 }
  if resp.1 < 0 then
    { s1 with
      errorLog := s1.errorLog ++ ["Allegro Hand Node is Shutting Down! (Emergency Stop)"]
      shutdownFlag := true }
  else s1

/-- `AllegroNode::publishData`: stamp the message, copy filtered
position, *filtered* velocity and desired torque into it, and call
`joint_state_pub.publish(msgJoint)`.  Modelled from the spec: the
publish call made after `ros::shutdown()` has been requested emits no
message to observers (spec section 7, "no partial or corrupt state-update
message is ever emitted after the fault tick"); the ROS publisher object
itself lives outside this repository. -/
def publishData (s : AllegroState) : AllegroState :=
  let msg : JointStateMsg :=
    { stamp := s.tnow
      name := s.msgJoint.name
      position := s.current_position_filtered
      velocity := s.current_velocity_filtered
      effort := s.desired_torque }
  let s1 : AllegroState := { s with msgJoint := msg }
  if s1.shutdownFlag then s1 else { s1 with published := s1.published ++ [msg] }

/-- One per-joint pass of the low-pass filtering block of
`AllegroNode::updateController`, applied to the state just after
`updateWriteReadCAN` returned.  `current_velocity` is written twice in
the C++ loop body: first with the filtered-position difference quotient
(consumed only by the filtered-velocity update on the *next* line via
this tick's local value), then overwritten with the raw finite
difference. -/
def filterStep (s : AllegroState) : AllegroState :=
  let cpf : JointVec := fun i =>
    0.6 * s.current_position_filtered i +
      0.198 * s.previous_position i +
      0.198 * s.current_position i
  let vFromFiltered : JointVec := fun i =>
    (cpf i - s.previous_position_filtered i) / s.dt
  let cvf : JointVec := fun i =>
    0.6 * s.current_velocity_filtered i +
      0.198 * s.previous_velocity i +
      0.198 * vFromFiltered i
  let cv : JointVec := fun i =>
    (s.current_position i - s.previous_position i) / s.dt
  { s with
    current_position_filtered := cpf
    current_velocity := cv
    current_velocity_filtered := cvf }

/-- The state of the node at the moment `computeDesiredTorque()` is
invoked inside `AllegroNode::updateController`: loop time computed,
previous-tick values archived, CAN transaction performed, filters
updated. -/
def controlDispatchInput (tnowIn : ℤ) (resp : ℤ × JointVec)
    (s : AllegroState) : AllegroState :=
  let sTimed : AllegroState :=
    { s with
      tnow := tnowIn
      dt := computeDt s.tstart tnowIn
      tstart := tnowIn }
  let sArch : AllegroState :=
    { sTimed with
      previous_position := sTimed.current_position
      previous_position_filtered := sTimed.current_position_filtered
      previous_velocity := sTimed.current_velocity }
  filterStep (updateWriteReadCAN resp sArch)

/-- `AllegroNode::updateController`.  `controlLaw` is the pure-virtual
`computeDesiredTorque()`, supplied by the concrete node subclass
(outside this file's source): it reads the loop state and overwrites
`desired_torque`. -/
def updateController (controlLaw : AllegroState → JointVec) (tnowIn : ℤ)
    (resp : ℤ × JointVec) (s : AllegroState) : AllegroState :=
  let s4 := controlDispatchInput tnowIn resp s
  let s5 : AllegroState := { s4 with desired_torque := controlLaw s4 }
  let s6 := publishData s5
  { s6 with frame := s6.frame + 1 }

/-- The zero joint vector. -/
def zeroVec : JointVec := fun _ => 0

/-- Modelled from the spec: the member declarations of class
`AllegroNode` live in `allegro_node.h`, which is not among the given
sources; spec section 3 ("LoopState and JointIdentity are created once at
startup with all-zero torque/velocity", TimingState "(re)initialized at
startup") fixes the pre-constructor member values to zero / empty. -/
def initMembers : AllegroState :=
  { current_position := zeroVec
    previous_position := zeroVec
    current_position_filtered := zeroVec
    previous_position_filtered := zeroVec
    current_velocity := zeroVec
    previous_velocity := zeroVec
    current_velocity_filtered := zeroVec
    desired_torque := zeroVec
    msgJoint := { stamp := 0, name := [], position := zeroVec,
                  velocity := zeroVec, effort := zeroVec }
    tstart := 0
    tnow := 0
    dt := 0
    frame := 0
    lEmergencyStop := 0
    shutdownFlag := false
    errorLog := []
    lastSentTorque := zeroVec
    published := [] }

/-- `AllegroNode::AllegroNode`: resize the message arrays (sixteen
zero-valued slots), bind the joint names from the canonical table, zero
`desired_torque` and `current_velocity`, read the hand-identity
parameters (external configuration, no loop-state effect), initialize
the CAN device, wait 3 ms, perform one priming `updateWriteReadCAN`
with result `primeResp`, then record the loop-start time `t0`
(`tstart = ros::Time::now()`) and advertise the joint-state topic. -/
def constructAllegro (primeResp : ℤ × JointVec) (t0 : ℤ) : AllegroState :=
  let s : AllegroState :=
    { initMembers with
      msgJoint := { stamp := 0, name := jointNames, position := zeroVec,
                    velocity := zeroVec, effort := zeroVec }
      desired_torque := zeroVec
      current_velocity := zeroVec }
  let s1 := updateWriteReadCAN primeResp s
  { s1 with tstart := t0 }

/-- The periodic 1 ms timer driving `AllegroNode::timerCallback`.  Each
list entry is one potential tick: the wall-clock time `ros::Time::now()`
would return and the CAN transaction result for that tick.  Modelled
from the spec: once `ros::shutdown()` has been requested the timer does
not fire again (spec section 8, "the scheduler does not fire again"); the
ROS timer facility itself lives outside this repository. -/
def runLoop (controlLaw : AllegroState → JointVec)
    (inputs : List (ℤ × ℤ × JointVec)) (s : AllegroState) : AllegroState :=
  match inputs with
  | [] => s
  | (t, st, pos) :: rest =>
      if s.shutdownFlag then s
      else runLoop controlLaw rest (updateController controlLaw t (st, pos) s)

/-- A trivial concrete control law (torque identically zero), used to
instantiate scenarios; the loop code treats `computeDesiredTorque` as
opaque. -/
def zeroLaw : AllegroState → JointVec := fun _ => zeroVec

/-! ## Concrete scenario states -/

/-- Joint index 0. -/
def joint0 : Fin DOF_JOINTS := ⟨0, by decide⟩

/-- Joint index 1. -/
def joint1 : Fin DOF_JOINTS := ⟨1, by decide⟩

/-- The node right after construction: priming transaction succeeds with
all joints sampled at 0, loop-start time 0 ns. -/
def scen0 : AllegroState := constructAllegro (0, zeroVec) 0

/-- First tick of the spec section 8 scenario: clock at 10^7 ns (so
`dt = 0.01 s`), successful transaction sampling every joint at 1. -/
def scen1 : AllegroState := updateController zeroLaw 10000000 (0, fun _ => 1) scen0

/-- Second tick of the scenario: clock at 2*10^7 ns (`dt = 0.01 s`),
successful transaction sampling every joint at 2. -/
def scen2 : AllegroState := updateController zeroLaw 20000000 (0, fun _ => 2) scen1

/-- A faulting first tick: clock at 10^7 ns, transaction status -1
sampling every joint at 1. -/
def scenFault : AllegroState :=
  updateController zeroLaw 10000000 ((-1 : ℤ), fun _ => 1) scen0


/-! ## Projection lemmas for the per-tick operations -/

@[simp] lemma updateWriteReadCAN_current_position (resp : ℤ × JointVec)
    (s : AllegroState) : (updateWriteReadCAN resp s).current_position = resp.2 := by
  unfold updateWriteReadCAN; split <;> rfl

@[simp] lemma updateWriteReadCAN_previous_position (resp : ℤ × JointVec)
    (s : AllegroState) :
    (updateWriteReadCAN resp s).previous_position = s.previous_position := by
  unfold updateWriteReadCAN; split <;> rfl

@[simp] lemma updateWriteReadCAN_current_position_filtered (resp : ℤ × JointVec)
    (s : AllegroState) :
    (updateWriteReadCAN resp s).current_position_filtered =
      s.current_position_filtered := by
  unfold updateWriteReadCAN; split <;> rfl

@[simp] lemma updateWriteReadCAN_previous_position_filtered (resp : ℤ × JointVec)
    (s : AllegroState) :
    (updateWriteReadCAN resp s).previous_position_filtered =
      s.previous_position_filtered := by
  unfold updateWriteReadCAN; split <;> rfl

@[simp] lemma updateWriteReadCAN_current_velocity (resp : ℤ × JointVec)
    (s : AllegroState) :
    (updateWriteReadCAN resp s).current_velocity = s.current_velocity := by
  unfold updateWriteReadCAN; split <;> rfl

@[simp] lemma updateWriteReadCAN_previous_velocity (resp : ℤ × JointVec)
    (s : AllegroState) :
    (updateWriteReadCAN resp s).previous_velocity = s.previous_velocity := by
  unfold updateWriteReadCAN; split <;> rfl

@[simp] lemma updateWriteReadCAN_current_velocity_filtered (resp : ℤ × JointVec)
    (s : AllegroState) :
    (updateWriteReadCAN resp s).current_velocity_filtered =
      s.current_velocity_filtered := by
  unfold updateWriteReadCAN; split <;> rfl

@[simp] lemma updateWriteReadCAN_desired_torque (resp : ℤ × JointVec)
    (s : AllegroState) :
    (updateWriteReadCAN resp s).desired_torque = s.desired_torque := by
  unfold updateWriteReadCAN; split <;> rfl

@[simp] lemma updateWriteReadCAN_lastSentTorque (resp : ℤ × JointVec)
    (s : AllegroState) :
    (updateWriteReadCAN resp s).lastSentTorque = s.desired_torque := by
  unfold updateWriteReadCAN; split <;> rfl

@[simp] lemma updateWriteReadCAN_msgJoint (resp : ℤ × JointVec)
    (s : AllegroState) : (updateWriteReadCAN resp s).msgJoint = s.msgJoint := by
  unfold updateWriteReadCAN; split <;> rfl

@[simp] lemma updateWriteReadCAN_tstart (resp : ℤ × JointVec)
    (s : AllegroState) : (updateWriteReadCAN resp s).tstart = s.tstart := by
  unfold updateWriteReadCAN; split <;> rfl

@[simp] lemma updateWriteReadCAN_tnow (resp : ℤ × JointVec)
    (s : AllegroState) : (updateWriteReadCAN resp s).tnow = s.tnow := by
  unfold updateWriteReadCAN; split <;> rfl

@[simp] lemma updateWriteReadCAN_dt (resp : ℤ × JointVec)
    (s : AllegroState) : (updateWriteReadCAN resp s).dt = s.dt := by
  unfold updateWriteReadCAN; split <;> rfl

@[simp] lemma updateWriteReadCAN_frame (resp : ℤ × JointVec)
    (s : AllegroState) : (updateWriteReadCAN resp s).frame = s.frame := by
  unfold updateWriteReadCAN; split <;> rfl

@[simp] lemma updateWriteReadCAN_published (resp : ℤ × JointVec)
    (s : AllegroState) : (updateWriteReadCAN resp s).published = s.published := by
  unfold updateWriteReadCAN; split <;> rfl

lemma updateWriteReadCAN_shutdown_of_neg (resp : ℤ × JointVec)
    (s : AllegroState) (h : resp.1 < 0) :
    (updateWriteReadCAN resp s).shutdownFlag = true := by
  unfold updateWriteReadCAN; rw [if_pos h]

lemma updateWriteReadCAN_errorLog_of_neg (resp : ℤ × JointVec)
    (s : AllegroState) (h : resp.1 < 0) :
    (updateWriteReadCAN resp s).errorLog =
      s.errorLog ++ ["Allegro Hand Node is Shutting Down! (Emergency Stop)"] := by
  unfold updateWriteReadCAN; rw [if_pos h]

lemma updateWriteReadCAN_shutdown_of_nonneg (resp : ℤ × JointVec)
    (s : AllegroState) (h : ¬ resp.1 < 0) :
    (updateWriteReadCAN resp s).shutdownFlag = s.shutdownFlag := by
  unfold updateWriteReadCAN; rw [if_neg h]

@[simp] lemma publishData_msgJoint (s : AllegroState) :
    (publishData s).msgJoint =
      { stamp := s.tnow, name := s.msgJoint.name,
        position := s.current_position_filtered,
        velocity := s.current_velocity_filtered,
        effort := s.desired_torque } := by
  unfold publishData; dsimp only; split <;> rfl

@[simp] lemma publishData_current_position (s : AllegroState) :
    (publishData s).current_position = s.current_position := by
  unfold publishData; dsimp only; split <;> rfl

@[simp] lemma publishData_previous_position (s : AllegroState) :
    (publishData s).previous_position = s.previous_position := by
  unfold publishData; dsimp only; split <;> rfl

@[simp] lemma publishData_current_position_filtered (s : AllegroState) :
    (publishData s).current_position_filtered = s.current_position_filtered := by
  unfold publishData; dsimp only; split <;> rfl

@[simp] lemma publishData_previous_position_filtered (s : AllegroState) :
    (publishData s).previous_position_filtered = s.previous_position_filtered := by
  unfold publishData; dsimp only; split <;> rfl

@[simp] lemma publishData_current_velocity (s : AllegroState) :
    (publishData s).current_velocity = s.current_velocity := by
  unfold publishData; dsimp only; split <;> rfl

@[simp] lemma publishData_previous_velocity (s : AllegroState) :
    (publishData s).previous_velocity = s.previous_velocity := by
  unfold publishData; dsimp only; split <;> rfl

@[simp] lemma publishData_current_velocity_filtered (s : AllegroState) :
    (publishData s).current_velocity_filtered = s.current_velocity_filtered := by
  unfold publishData; dsimp only; split <;> rfl

@[simp] lemma publishData_desired_torque (s : AllegroState) :
    (publishData s).desired_torque = s.desired_torque := by
  unfold publishData; dsimp only; split <;> rfl

@[simp] lemma publishData_lastSentTorque (s : AllegroState) :
    (publishData s).lastSentTorque = s.lastSentTorque := by
  unfold publishData; dsimp only; split <;> rfl

@[simp] lemma publishData_frame (s : AllegroState) :
    (publishData s).frame = s.frame := by
  unfold publishData; dsimp only; split <;> rfl

@[simp] lemma publishData_tstart (s : AllegroState) :
    (publishData s).tstart = s.tstart := by
  unfold publishData; dsimp only; split <;> rfl

@[simp] lemma publishData_tnow (s : AllegroState) :
    (publishData s).tnow = s.tnow := by
  unfold publishData; dsimp only; split <;> rfl

@[simp] lemma publishData_dt (s : AllegroState) :
    (publishData s).dt = s.dt := by
  unfold publishData; dsimp only; split <;> rfl

@[simp] lemma publishData_shutdownFlag (s : AllegroState) :
    (publishData s).shutdownFlag = s.shutdownFlag := by
  unfold publishData; dsimp only; split <;> rfl

@[simp] lemma publishData_errorLog (s : AllegroState) :
    (publishData s).errorLog = s.errorLog := by
  unfold publishData; dsimp only; split <;> rfl

lemma publishData_published_of_shutdown (s : AllegroState)
    (h : s.shutdownFlag = true) : (publishData s).published = s.published := by
  unfold publishData; dsimp only; rw [if_pos h]

lemma publishData_published_of_running (s : AllegroState)
    (h : s.shutdownFlag = false) :
    (publishData s).published = s.published ++ [(publishData s).msgJoint] := by
  rw [publishData_msgJoint]
  unfold publishData
  dsimp only
  rw [if_neg (by simp [h])]

/-- Once shutdown has been requested, the timer never runs the loop body
again, whatever inputs arrive. -/
lemma runLoop_of_shutdown (controlLaw : AllegroState → JointVec)
    (inputs : List (ℤ × ℤ × JointVec)) (s : AllegroState)
    (h : s.shutdownFlag = true) : runLoop controlLaw inputs s = s := by
  cases inputs with
  | nil => rfl
  | cons a rest =>
      obtain ⟨t, st, pos⟩ := a
      simp [runLoop, h]

@[simp] lemma updateController_msgJoint_name (controlLaw : AllegroState → JointVec)
    (tnowIn : ℤ) (resp : ℤ × JointVec) (s : AllegroState) :
    (updateController controlLaw tnowIn resp s).msgJoint.name = s.msgJoint.name := by
  simp [updateController, controlDispatchInput, filterStep]

lemma runLoop_msgJoint_name (controlLaw : AllegroState → JointVec) :
    ∀ (inputs : List (ℤ × ℤ × JointVec)) (s : AllegroState),
      (runLoop controlLaw inputs s).msgJoint.name = s.msgJoint.name := by
  intro inputs
  induction inputs with
  | nil => intro s; rfl
  | cons a rest ih =>
      intro s
      obtain ⟨t, st, pos⟩ := a
      by_cases hs : s.shutdownFlag
      · simp [runLoop, hs]
      · simp [runLoop, hs, ih]

/-! ## Claim theorems -/

/-- Claim C1, counterexample to the original statement: on the first
scenario tick (`dt = 0.01 > 0`, raw position going 0 to 1), the velocity
field of the emitted state-update message is not the raw finite
difference `(rawPosition - previousRawPosition) / dt` (which is 100); it
is exactly the intermediate filtered-velocity quantity. -/
theorem C1_counterexample :
    0 < scen1.dt ∧
    scen1.published = [scen1.msgJoint] ∧
    scen1.msgJoint.velocity joint0 ≠
      (scen1.current_position joint0 - scen1.previous_position joint0) /
        scen1.dt ∧
    scen1.msgJoint.velocity joint0 = scen1.current_velocity_filtered joint0 := by
  refine ⟨?_, ?_, ?_, ?_⟩ <;>
    norm_num [scen0, scen1, constructAllegro, initMembers, updateController,
      controlDispatchInput, filterStep, updateWriteReadCAN, publishData,
      computeDt, zeroLaw, zeroVec]

/-- Claim C1 as amended: on every tick, the velocity field of the
state-update message filled by `publishData` equals the filtered-velocity
quantity `0.6 * filteredVelocity + 0.198 * previousRawVelocity
+ 0.198 * velocityFromFiltered` computed that tick, for every joint; the
raw finite difference `(rawPosition - previousRawPosition) / dt` is
stored in the internal raw-velocity field but is not what is published. -/
theorem C1_published_velocity_is_filtered (controlLaw : AllegroState → JointVec)
    (tnowIn : ℤ) (resp : ℤ × JointVec) (s : AllegroState) (i : Fin DOF_JOINTS) :
    (updateController controlLaw tnowIn resp s).msgJoint.velocity i =
      (updateController controlLaw tnowIn resp s).current_velocity_filtered i ∧
    (updateController controlLaw tnowIn resp s).current_velocity_filtered i =
      0.6 * s.current_velocity_filtered i + 0.198 * s.current_velocity i +
        0.198 * ((0.6 * s.current_position_filtered i +
            0.198 * s.current_position i + 0.198 * resp.2 i -
          s.current_position_filtered i) / computeDt s.tstart tnowIn) ∧
    (updateController controlLaw tnowIn resp s).current_velocity i =
      (resp.2 i - s.current_position i) / computeDt s.tstart tnowIn := by
  refine ⟨?_, ?_, ?_⟩ <;>
    simp [updateController, controlDispatchInput, filterStep]

/-- Claim C2, counterexample to the original statement: on a tick whose
transaction returns status -1, further per-tick steps are still performed
— the tick counter is incremented and the position filter is updated. -/
theorem C2_counterexample :
    scenFault.frame = scen0.frame + 1 ∧
    scenFault.current_position_filtered joint0 ≠
      scen0.current_position_filtered joint0 := by
  constructor
  · simp [scenFault, updateController, controlDispatchInput, filterStep]
  · norm_num [scenFault, scen0, constructAllegro, initMembers, updateController,
      controlDispatchInput, filterStep, updateWriteReadCAN, publishData,
      computeDt, zeroLaw, zeroVec]

/-- Claim C2 as amended: if `transact` returns a negative status on tick
N, the node logs the emergency-stop diagnostic and requests shutdown, but
the remaining per-tick steps of tick N still execute (filter update,
control dispatch, the publish call, the tick-counter increment); because
shutdown is requested before the publish call, no state-update message is
emitted on tick N, none on any later tick, and the scheduler does not
fire again. -/
theorem C2_fault_tick_behavior (controlLaw : AllegroState → JointVec)
    (tnowIn : ℤ) (resp : ℤ × JointVec) (s : AllegroState) (i : Fin DOF_JOINTS)
    (inputs : List (ℤ × ℤ × JointVec)) (hneg : resp.1 < 0) :
    (updateController controlLaw tnowIn resp s).shutdownFlag = true ∧
    (updateController controlLaw tnowIn resp s).errorLog =
      s.errorLog ++ ["Allegro Hand Node is Shutting Down! (Emergency Stop)"] ∧
    (updateController controlLaw tnowIn resp s).frame = s.frame + 1 ∧
    (updateController controlLaw tnowIn resp s).current_position_filtered i =
      0.6 * s.current_position_filtered i + 0.198 * s.current_position i +
        0.198 * resp.2 i ∧
    (updateController controlLaw tnowIn resp s).desired_torque =
      controlLaw (controlDispatchInput tnowIn resp s) ∧
    (updateController controlLaw tnowIn resp s).published = s.published ∧
    runLoop controlLaw inputs (updateController controlLaw tnowIn resp s) =
      updateController controlLaw tnowIn resp s := by
  have hshut : (updateController controlLaw tnowIn resp s).shutdownFlag = true := by
    simp [updateController, controlDispatchInput, filterStep,
      updateWriteReadCAN_shutdown_of_neg _ _ hneg]
  refine ⟨hshut, ?_, ?_, ?_, ?_, ?_, runLoop_of_shutdown _ _ _ hshut⟩
  · simp [updateController, controlDispatchInput, filterStep,
      updateWriteReadCAN_errorLog_of_neg _ _ hneg]
  · simp [updateController, controlDispatchInput, filterStep]
  · simp [updateController, controlDispatchInput, filterStep]
  · simp [updateController]
  · simp [updateController]
    rw [publishData_published_of_shutdown]
    · simp [controlDispatchInput, filterStep]
    · simp [controlDispatchInput, filterStep,
        updateWriteReadCAN_shutdown_of_neg _ _ hneg]

/-- Claim C2 witness: the amended fault-tick behavior instantiated on the
concrete faulting tick `scenFault`. -/
theorem C2_fault_tick_behavior_witness :
    scenFault.shutdownFlag = true ∧
    scenFault.errorLog =
      scen0.errorLog ++ ["Allegro Hand Node is Shutting Down! (Emergency Stop)"] ∧
    scenFault.frame = scen0.frame + 1 ∧
    scenFault.current_position_filtered joint0 =
      0.6 * scen0.current_position_filtered joint0 +
        0.198 * scen0.current_position joint0 + 0.198 * 1 ∧
    scenFault.desired_torque =
      zeroLaw (controlDispatchInput 10000000 ((-1 : ℤ), fun _ => 1) scen0) ∧
    scenFault.published = scen0.published ∧
    runLoop zeroLaw [(20000000, 0, zeroVec)] scenFault = scenFault :=
  C2_fault_tick_behavior zeroLaw 10000000 ((-1 : ℤ), fun _ => 1) scen0 joint0
    [(20000000, 0, zeroVec)] (by norm_num)

/-- Claim C3: the code computes `dt = 1e-9 * (tnow - tstart).nsec`, which
keeps only the sub-second (nanosecond-remainder) part of the elapsed
time.  At the failing input — previous tick at 0 ns, current tick at
1.5e9 ns — the code yields `dt = 0.5` s while the full elapsed wall-clock
time is `1.5` s; the second half of the claim (the previous-tick
timestamp is then set to the current time) does hold. -/
theorem C3_dt_truncation :
    computeDt 0 1500000000 = 1 / 2 ∧
    ((1500000000 : ℚ) - 0) / 1000000000 = 3 / 2 ∧
    computeDt 0 1500000000 ≠ ((1500000000 : ℚ) - 0) / 1000000000 ∧
    scen0.tstart = 0 ∧
    (updateController zeroLaw 1500000000 (0, zeroVec) scen0).dt = 1 / 2 ∧
    (updateController zeroLaw 1500000000 (0, zeroVec) scen0).tstart =
      1500000000 := by
  refine ⟨by norm_num [computeDt], by norm_num, by norm_num [computeDt], ?_, ?_, ?_⟩
  · norm_num [scen0, constructAllegro, initMembers]
  · norm_num [updateController, controlDispatchInput, filterStep, computeDt,
      scen0, constructAllegro, initMembers]
  · simp [updateController, controlDispatchInput, filterStep]

/-- Claim C4: after the constructor runs (for any priming-transaction
result and any loop-start time), the commanded torque, the raw velocity
and the filtered velocity are zero for every joint; nothing further runs
before the first timer tick. -/
theorem C4_startup_all_zero (primeResp : ℤ × JointVec) (t0 : ℤ)
    (i : Fin DOF_JOINTS) :
    (constructAllegro primeResp t0).desired_torque i = 0 ∧
    (constructAllegro primeResp t0).current_velocity i = 0 ∧
    (constructAllegro primeResp t0).current_velocity_filtered i = 0 := by
  refine ⟨?_, ?_, ?_⟩ <;> simp [constructAllegro, initMembers, zeroVec]

/-- Claim C5: for every joint, every tick with `dt > 0` and arbitrary
prior state, the filtered-position update is the affine function
`0.6 * filteredPosition + 0.198 * previousRawPosition
+ 0.198 * rawPosition` of exactly those three inputs (the previous raw
position being the prior tick's sample, the raw position being the fresh
sample), and the fixed coefficients do not sum to 1. -/
theorem C5_filter_affine (controlLaw : AllegroState → JointVec) (tnowIn : ℤ)
    (resp : ℤ × JointVec) (s : AllegroState) (i : Fin DOF_JOINTS)
    (h : 0 < computeDt s.tstart tnowIn) :
    (updateController controlLaw tnowIn resp s).current_position_filtered i =
      0.6 * s.current_position_filtered i + 0.198 * s.current_position i +
        0.198 * resp.2 i ∧
    (0.6 + 0.198 + 0.198 : ℚ) ≠ 1 := by
  constructor
  · simp [updateController, controlDispatchInput, filterStep]
  · norm_num

/-- Claim C5 witness: the affine filter update instantiated on the first
scenario tick, whose `dt` is the strictly positive value 0.01 s. -/
theorem C5_filter_affine_witness :
    0 < computeDt scen0.tstart 10000000 ∧
    (scen1.current_position_filtered joint0 =
        0.6 * scen0.current_position_filtered joint0 +
          0.198 * scen0.current_position joint0 + 0.198 * 1 ∧
      (0.6 + 0.198 + 0.198 : ℚ) ≠ 1) := by
  have hpos : 0 < computeDt scen0.tstart 10000000 := by
    norm_num [scen0, constructAllegro, initMembers, computeDt]
  exact ⟨hpos,
    C5_filter_affine zeroLaw 10000000 ((0 : ℤ), fun _ => 1) scen0 joint0 hpos⟩

/-- Claim C6, counterexample to the original statement: in the two-joint
scenario (raw positions 0, 1, 2 with `dt = 0.01` and filters starting at
0), the filtered position after the first tick is 0.198, not 0.396, after
the second tick 0.7128, not 0.8316, and the published velocities are not
100 on either tick. -/
theorem C6_counterexample :
    scen1.current_position_filtered joint0 ≠ 396 / 1000 ∧
    scen2.current_position_filtered joint0 ≠ 8316 / 10000 ∧
    scen1.msgJoint.velocity joint0 ≠ 100 ∧
    scen2.msgJoint.velocity joint0 ≠ 100 := by
  norm_num [scen0, scen1, scen2, constructAllegro, initMembers, updateController,
    controlDispatchInput, filterStep, updateWriteReadCAN, publishData, computeDt,
    zeroLaw, zeroVec]

/-- Claim C6 as amended: the scenario yields filtered positions
0, then 0.198, then 0.7128 on both joints; the published velocities are
the filtered-velocity values 3.9204 then 32.34528, while the internal raw
finite-difference velocity is 100 on both ticks. -/
theorem C6_scenario_values :
    scen0.current_position_filtered joint0 = 0 ∧
    scen0.current_position_filtered joint1 = 0 ∧
    scen1.dt = 1 / 100 ∧
    scen2.dt = 1 / 100 ∧
    scen1.current_position_filtered joint0 = 99 / 500 ∧
    scen1.current_position_filtered joint1 = 99 / 500 ∧
    scen2.current_position_filtered joint0 = 891 / 1250 ∧
    scen2.current_position_filtered joint1 = 891 / 1250 ∧
    scen1.msgJoint.velocity joint0 = 9801 / 2500 ∧
    scen1.msgJoint.velocity joint1 = 9801 / 2500 ∧
    scen2.msgJoint.velocity joint0 = 101079 / 3125 ∧
    scen2.msgJoint.velocity joint1 = 101079 / 3125 ∧
    scen1.current_velocity joint0 = 100 ∧
    scen1.current_velocity joint1 = 100 ∧
    scen2.current_velocity joint0 = 100 ∧
    scen2.current_velocity joint1 = 100 := by
  norm_num [scen0, scen1, scen2, constructAllegro, initMembers, updateController,
    controlDispatchInput, filterStep, updateWriteReadCAN, publishData, computeDt,
    zeroLaw, zeroVec]

/-- Claim C7: on every tick, whatever the transaction returns, the
current raw position, current filtered position and current raw velocity
are archived into the corresponding previous slots before the device
transaction, so after the tick each previous value equals the
immediately prior tick's current value. -/
theorem C7_archive_previous (controlLaw : AllegroState → JointVec) (tnowIn : ℤ)
    (resp : ℤ × JointVec) (s : AllegroState) :
    (updateController controlLaw tnowIn resp s).previous_position =
        s.current_position ∧
    (updateController controlLaw tnowIn resp s).previous_position_filtered =
        s.current_position_filtered ∧
    (updateController controlLaw tnowIn resp s).previous_velocity =
        s.current_velocity := by
  refine ⟨?_, ?_, ?_⟩ <;>
    simp [updateController, controlDispatchInput, filterStep]

/-- Claim C8: on any two consecutive ticks, the torque vector handed to
the device transaction of the second tick is exactly the command torque
that the control-dispatch hook computed on the first tick (the
transaction precedes the control law within a tick, so the device gets
the previous tick's torque together with the new samples). -/
theorem C8_stale_torque (controlLaw : AllegroState → JointVec)
    (t1 t2 : ℤ) (r1 r2 : ℤ × JointVec) (s0 : AllegroState) :
    (updateController controlLaw t2 r2
        (updateController controlLaw t1 r1 s0)).lastSentTorque =
      (updateController controlLaw t1 r1 s0).desired_torque ∧
    (updateController controlLaw t1 r1 s0).desired_torque =
      controlLaw (controlDispatchInput t1 r1 s0) := by
  constructor
  · simp [updateController, controlDispatchInput, filterStep]
  · simp [updateController]

/-- Claim C9: the joint-name array placed in every published message is
exactly the 16 canonical strings in canonical order, bound once by the
constructor from the global table and never written again by the CAN
exchange, the publisher, a controller tick, or any run of the timer
loop. -/
theorem C9_joint_names_canonical_immutable (pr : ℤ × JointVec) (t0 tnowIn : ℤ)
    (controlLaw : AllegroState → JointVec) (resp : ℤ × JointVec)
    (s : AllegroState) (inputs : List (ℤ × ℤ × JointVec)) :
    (constructAllegro pr t0).msgJoint.name = jointNames ∧
    jointNames =
      ["index_joint_0", "index_joint_1", "index_joint_2", "index_joint_3",
       "middle_joint_0", "middle_joint_1", "middle_joint_2", "middle_joint_3",
       "ring_joint_0", "ring_joint_1", "ring_joint_2", "ring_joint_3",
       "thumb_joint_0", "thumb_joint_1", "thumb_joint_2", "thumb_joint_3"] ∧
    jointNames.length = DOF_JOINTS ∧
    (updateWriteReadCAN resp s).msgJoint.name = s.msgJoint.name ∧
    (publishData s).msgJoint.name = s.msgJoint.name ∧
    (updateController controlLaw tnowIn resp s).msgJoint.name = s.msgJoint.name ∧
    (runLoop controlLaw inputs (constructAllegro pr t0)).msgJoint.name =
      jointNames := by
  refine ⟨?_, rfl, rfl, ?_, ?_, ?_, ?_⟩
  · simp [constructAllegro, initMembers]
  · simp
  · simp
  · simp
  · rw [runLoop_msgJoint_name]
    simp [constructAllegro, initMembers]

/-- Claim C10: if the single priming transaction performed during
construction returns a negative status, the constructor goes through the
very same `updateWriteReadCAN` emergency-stop branch as a mid-loop
fault: it logs the diagnostic and requests shutdown, so the periodic
scheduler never runs a tick and no state-update message is ever
emitted. -/
theorem C10_prime_fault_shutdown (pos : JointVec) (st t0 : ℤ)
    (controlLaw : AllegroState → JointVec)
    (inputs : List (ℤ × ℤ × JointVec)) (hneg : st < 0) :
    (constructAllegro (st, pos) t0).shutdownFlag = true ∧
    (constructAllegro (st, pos) t0).errorLog =
      ["Allegro Hand Node is Shutting Down! (Emergency Stop)"] ∧
    runLoop controlLaw inputs (constructAllegro (st, pos) t0) =
      constructAllegro (st, pos) t0 ∧
    (runLoop controlLaw inputs (constructAllegro (st, pos) t0)).published =
      [] := by
  have hshut : (constructAllegro (st, pos) t0).shutdownFlag = true := by
    simp [constructAllegro, initMembers,
      updateWriteReadCAN_shutdown_of_neg ((st, pos) : ℤ × JointVec) _ hneg]
  refine ⟨hshut, ?_, runLoop_of_shutdown _ _ _ hshut, ?_⟩
  · simp [constructAllegro, initMembers,
      updateWriteReadCAN_errorLog_of_neg ((st, pos) : ℤ × JointVec) _ hneg]
  · rw [runLoop_of_shutdown _ _ _ hshut]
    simp [constructAllegro, initMembers]

/-- Claim C10 witness: the priming-fault behavior instantiated at status
-1, all-zero sample, loop-start time 0, and one pending timer input. -/
theorem C10_prime_fault_shutdown_witness :
    (constructAllegro ((-1 : ℤ), zeroVec) 0).shutdownFlag = true ∧
    (constructAllegro ((-1 : ℤ), zeroVec) 0).errorLog =
      ["Allegro Hand Node is Shutting Down! (Emergency Stop)"] ∧
    runLoop zeroLaw [(5, 0, zeroVec)] (constructAllegro ((-1 : ℤ), zeroVec) 0) =
      constructAllegro ((-1 : ℤ), zeroVec) 0 ∧
    (runLoop zeroLaw [(5, 0, zeroVec)]
        (constructAllegro ((-1 : ℤ), zeroVec) 0)).published = [] :=
  C10_prime_fault_shutdown zeroVec (-1) 0 zeroLaw [(5, 0, zeroVec)] (by norm_num)
